import Mathlib

/-!
Shallow embedding of `lib/output/writer/dynamodb.go` (benthos DynamoDB
output writer) and proofs about its construction, connection and write
retry-loop behaviour.

Modelling conventions:
* Go `time.Duration` values are `Nat` (the unit is irrelevant to the
  properties proved here); `backoff.Stop` (a negative sentinel) is the
  dedicated constructor `BWait.stop`.
* Go maps are modelled as association lists together with an
  insert-that-overwrites operation (`mapInsert`); Go map iteration order
  is unspecified, so every theorem that depends on the column map holds
  for an arbitrary ordering of its (distinct-keyed) entries.
* External collaborators that live outside this source file (the AWS
  session builder, the DynamoDB client, the backoff object produced by
  `retries.Config.Get`, the template interpolator, the wall clock) are
  oracles: arbitrary functions supplied in an environment record.  The
  writer code consumes them exactly where the Go code calls them.
* Side effects that the properties talk about (submitting a batch,
  creating a timer with `time.After`, sleeping, resetting the backoff,
  performing the readiness check) are recorded in an explicit event
  trace.  Note that Go's `time.After(d)` allocates a timer channel and
  returns immediately; only receiving from that channel (`<-time.After(d)`)
  blocks.  Line 198 of the source discards the channel, so the embedding
  records a `timerAfter` event there and never a `sleep` event.
-/

/-- A value returned by `backoff.BackOff.NextBackOff`: either a finite wait
duration or the `backoff.Stop` sentinel. -/
inductive BWait where
  | stop : BWait
  | wait (d : Nat) : BWait
deriving DecidableEq, Repr

/-- Errors produced by the writer, mirroring the concrete `error` values in
the Go source. -/
inductive GoErr where
  /-- `types.ErrNotConnected`. -/
  | notConnected : GoErr
  /-- `fmt.Errorf("failed to parse retry fields: %v", err)`. -/
  | failedParseRetry : GoErr
  /-- `errors.New("you must provide at least one column")`. -/
  | mustProvideColumn : GoErr
  /-- `fmt.Errorf("failed to parse TTL: %v", err)`. -/
  | failedParseTTL : GoErr
  /-- an error returned by `session.GetSession`. -/
  | sessionErr (e : String) : GoErr
  /-- an error returned by a store API call (`DescribeTable` /
  `BatchWriteItem`). -/
  | store (e : String) : GoErr
  /-- `fmt.Errorf("dynamodb table '%s' must be active", table)`. -/
  | tableNotActive (table : String) : GoErr
  /-- `fmt.Errorf("failed to set %v items", n)`. -/
  | failedToSet (n : Nat) : GoErr
deriving DecidableEq, Repr

/-- Reads a non-empty all-digit character list as a decimal number. -/
def parseDigits (cs : List Char) : Option Nat :=
  if cs.isEmpty then none
  else
    cs.foldl
      (fun acc c =>
        match acc with
        | none => none
        | some n => if c.isDigit then some (n * 10 + (c.toNat - 48)) else none)
      (some 0)

/-- Modelled from the spec (Go standard library, not in `src/`):
`time.ParseDuration`.  Minimal model capturing the contract used here:
a decimal number followed by `s` parses to that many units, anything
else fails; the empty string is never passed (the caller guards on it). -/
def parseDuration (s : String) : Option Nat :=
  match s.data.reverse with
  | 's' :: rest => parseDigits rest.reverse
  | _ => none

/-- Modelled from the spec (Go standard library, not in `src/`):
`time.Time.Format(time.RFC3339Nano)` applied to the absolute time `t`.
The properties proved here only need the formatting to be an injective
function of the timestamp, so it is modelled as a tagged decimal
rendering. -/
def rfc3339Nano (t : Nat) : String :=
  "rfc3339:" ++ toString t

/-- `DynamoDBConfig`: the configuration fields consumed by the writer.
`stringColumns` is the Go map `string_columns` given as an association
list (a Go map has distinct keys and unspecified order).  `retriesOK` —
modelled from the spec: `retries.Config.Get` (in `lib/util/retries`, not
in `src/`) parses the retry fields and either yields a backoff object or
an error; only the success/failure outcome is observable in this file,
the backoff object itself is an oracle in the write environment. -/
structure DynamoDBConfig where
  table : String
  stringColumns : List (String × String)
  ttl : String
  ttlKey : String
  retriesOK : Bool
deriving DecidableEq, Repr

/-- The writer state (`DynamoDB` struct).  `client` is `none` until a
successful `Connect` stores the session token of the created client.
`strColumns` keeps the compiled templates; the interpolator contract
(deterministic, side-effect-free resolution) lets a compiled template be
identified with its source string, resolved through an oracle at write
time. -/
structure DynWriter where
  client : Option Nat
  conf : DynamoDBConfig
  ttl : Nat
  strColumns : List (String × String)
deriving DecidableEq, Repr

/-- `NewDynamoDB`: validates the config and builds the writer, in the
source's order: retry-field parse, non-empty column check, TTL parse. -/
def NewDynamoDB (conf : DynamoDBConfig) : Except GoErr DynWriter :=
  if !conf.retriesOK then
    .error .failedParseRetry
  else if conf.stringColumns.length = 0 then
    .error .mustProvideColumn
  else if conf.ttl ≠ "" then
    match parseDuration conf.ttl with
    | none => .error .failedParseTTL
    | some ttl =>
        .ok { client := none, conf := conf, ttl := ttl,
              strColumns := conf.stringColumns }
  else
    .ok { client := none, conf := conf, ttl := 0,
          strColumns := conf.stringColumns }

/-- The `*dynamodb.DescribeTableOutput` shape tested by `Connect`:
`out`, `out.Table` and `out.Table.TableStatus` may each be nil. -/
structure DescribeOut where
  table : Option (Option String)
deriving DecidableEq, Repr

/-- Result of one `DescribeTable` call: a transport error, or an output
pointer (itself possibly nil). -/
inductive DescribeRes where
  | err (e : String) : DescribeRes
  | ok (out : Option DescribeOut) : DescribeRes
deriving DecidableEq, Repr

/-- Environment for `Connect`: the session builder and the store's
readiness API, as oracles. -/
structure ConnEnv where
  getSession : Except String Nat
  describeTable : Nat → DescribeRes

/-- Observable actions of one `Connect` call. -/
inductive ConnEvent where
  | getSession : ConnEvent
  | describeTable : ConnEvent
deriving DecidableEq, Repr

/-- The guard on line 139 of the source:
`out == nil || out.Table == nil || out.Table.TableStatus == nil ||
*out.Table.TableStatus != dynamodb.TableStatusActive` is the *failure*
condition; this is its negation. -/
def tableActive : Option DescribeOut → Bool
  | none => false
  | some o =>
    match o.table with
    | none => false
    | some none => false
    | some (some status) => status = "ACTIVE"

/-- `Connect`: idempotent no-op when a client is already present;
otherwise build a session, create a client, check table readiness, and
only then store the client handle. -/
def Connect (w : DynWriter) (env : ConnEnv) :
    Option GoErr × DynWriter × List ConnEvent :=
  if w.client.isSome then
    (none, w, [])
  else
    match env.getSession with
    | .error e => (some (.sessionErr e), w, [.getSession])
    | .ok sess =>
      match env.describeTable sess with
      | .err e => (some (.store e), w, [.getSession, .describeTable])
      | .ok out =>
        if tableActive out then
          (none, { w with client := some sess },
           [.getSession, .describeTable])
        else
          (some (.tableNotActive w.conf.table), w,
           [.getSession, .describeTable])

/-- One record part: its content, addressed by the interpolator. -/
abbrev RecPart := String

/-- The rendered item of one `dynamodb.WriteRequest`: a Go map from
attribute name to the string (`S`) attribute value. -/
abbrev Item := List (String × String)

/-- Go map assignment `m[k] = v`: overwrites any existing binding of `k`.
The representation keeps the new binding in front with older bindings of
the same key removed; lookups and the key set are exactly those of the
Go map. -/
def mapInsert (m : Item) (k v : String) : Item :=
  (k, v) :: m.filter (fun p => p.1 ≠ k)

/-- Go map read `m[k]` (presence variant). -/
def mapLookup (m : Item) (k : String) : Option String :=
  match m with
  | [] => none
  | (k', v) :: rest => if k' = k then some v else mapLookup rest k

/-- Result of one `BatchWriteItem` call: a transport/service error, or a
success carrying `batchResult.UnprocessedItems[table]` (the empty list
when the key is absent). -/
inductive BatchRes where
  | err (e : String) : BatchRes
  | ok (unprocessed : List Item) : BatchRes
deriving DecidableEq, Repr

/-- Environment for `Write`: the store batch API and the backoff object's
`NextBackOff` as per-call oracles (indexed by the loop iteration), the
interpolator resolving a template string against the message at a part
index, and the wall clock read when rendering part `i`. -/
structure WriteEnv where
  batch : Nat → BatchRes
  boff : Nat → BWait
  interp : String → List RecPart → Nat → String
  clock : Nat → Nat

/-- Observable actions of one `Write` call. -/
inductive WEvent where
  /-- rendering of part `i` into a write request. -/
  | render (i : Nat) : WEvent
  /-- one `BatchWriteItem` submission of the pending list. -/
  | submit (reqs : List Item) : WEvent
  /-- `time.After(d)` called with its channel discarded: a timer is
  created and the call returns immediately. -/
  | timerAfter (d : Nat) : WEvent
  /-- a blocking wait of duration `d`.  Never emitted by this code: the
  source never receives from the timer channel and calls no sleep. -/
  | sleep (d : Nat) : WEvent
  /-- `d.backoff.Reset()`. -/
  | backoffReset : WEvent
deriving DecidableEq, Repr

/-- Rendering of one message part (lines 155–174): start from the TTL
attribute when both a non-zero TTL and a non-empty TTL key are
configured, then assign every configured column. -/
def renderItem (w : DynWriter) (env : WriteEnv) (msg : List RecPart)
    (i : Nat) : Item :=
  let base : Item :=
    if w.ttl ≠ 0 ∧ w.conf.ttlKey ≠ "" then
      mapInsert [] w.conf.ttlKey (rfc3339Nano (env.clock i + w.ttl))
    else []
  w.strColumns.foldl (fun m kt => mapInsert m kt.1 (env.interp kt.2 msg i)) base

/-- The column-only rendering (no TTL attribute attached). -/
def renderCols (w : DynWriter) (env : WriteEnv) (msg : List RecPart)
    (i : Nat) : Item :=
  w.strColumns.foldl (fun m kt => mapInsert m kt.1 (env.interp kt.2 msg i)) []

/-- Outcome of one iteration body of the retry loop (lines 178–199),
given the batch result and the wait obtained from `NextBackOff` at the
top of the iteration. -/
structure StepOut where
  /-- `writeReqs` after the iteration. -/
  reqs : List Item
  /-- the local `err` after the iteration. -/
  err : Option GoErr
  /-- whether the iteration executed `break` (backoff exhaustion while
  `err != nil`). -/
  stopped : Bool
  /-- events of the iteration. -/
  events : List WEvent
deriving DecidableEq, Repr

/-- One iteration of the retry loop: submit the pending list, classify
the result (transport error / non-empty unprocessed items / full
success), then apply the shared wait-or-stop handling whenever the
iteration ended in an error. -/
def writeStep (res : BatchRes) (wait : BWait) (reqs : List Item) : StepOut :=
  let (reqs', err') : List Item × Option GoErr :=
    match res with
    | .err e => (reqs, some (.store e))
    | .ok unproc =>
      if unproc.length > 0 then
        (unproc, some (.failedToSet unproc.length))
      else
        ([], none)
  match err' with
  | some _ =>
    match wait with
    | .stop => { reqs := reqs', err := err', stopped := true,
                 events := [.submit reqs] }
    | .wait d => { reqs := reqs', err := err', stopped := false,
                   events := [.submit reqs, .timerAfter d] }
  | none => { reqs := reqs', err := none, stopped := false,
              events := [.submit reqs] }

/-- The retry loop `for len(writeReqs) > 0 { ... }`, fuel-bounded (the Go
loop can run forever when the store keeps failing and the backoff never
signals `Stop`; `none` means the fuel ran out before the loop exited).
Returns the final pending list, the final `err`, the number of
iterations executed, and the event trace. -/
def writeLoop (env : WriteEnv) :
    Nat → List Item → Nat → Option GoErr →
    Option (List Item × Option GoErr × Nat × List WEvent)
  | 0, reqs, n, err =>
    if reqs.isEmpty then
      some (reqs, err, n, [])
    else
      none
  | fuel + 1, reqs, n, err =>
    if reqs.isEmpty then
      some (reqs, err, n, [])
    else
      let s := writeStep (env.batch n) (env.boff n) reqs
      if s.stopped then
        some (s.reqs, s.err, n + 1, s.events)
      else
        match writeLoop env fuel s.reqs (n + 1) s.err with
        | some (r, e, m, evs) => some (r, e, m, s.events ++ evs)
        | none => none

/-- The full result of one `Write` call. -/
structure WriteOut where
  /-- the Go return value (`none` models a nil error). -/
  ret : Option GoErr
  /-- `writeReqs` when the loop exited. -/
  pending : List Item
  /-- the local `err` when the loop exited. -/
  lastErr : Option GoErr
  /-- loop iterations executed. -/
  attempts : Nat
  /-- the event trace of the call. -/
  events : List WEvent
deriving DecidableEq, Repr

/-- `Write` (lines 149–206): fail fast with `ErrNotConnected` when no
client is present; otherwise render every part, run the retry loop, and
— faithfully to line 205 — return nil regardless of the loop's final
error (the backoff is reset only when the final error is nil). -/
def Write (w : DynWriter) (env : WriteEnv) (msg : List RecPart)
    (fuel : Nat) : Option WriteOut :=
  if w.client.isNone then
    some { ret := some .notConnected, pending := [], lastErr := none,
           attempts := 0, events := [] }
  else
    let reqs := (List.range msg.length).map (fun i => renderItem w env msg i)
    let renderEvs := (List.range msg.length).map WEvent.render
    match writeLoop env fuel reqs 0 none with
    | none => none
    | some (pend, err, n, evs) =>
      some { ret := none, pending := pend, lastErr := err, attempts := n,
             events := renderEvs ++ evs ++
               (if err = none then [.backoffReset] else []) }

/-- Folding Go map assignments for a list of columns, each column's value
computed by `f`, into an initial map `base`. -/
def insertAll (f : String × String → String) (base : Item)
    (cols : List (String × String)) : Item :=
  cols.foldl (fun m kt => mapInsert m kt.1 (f kt)) base

/-- Whether a write event is a blocking wait. -/
def isSleepEvent : WEvent → Bool
  | .sleep _ => true
  | _ => false

/-- Fixture: a minimal valid config with one column `c`. -/
def exConf : DynamoDBConfig :=
  { table := "T", stringColumns := [("c", "t")], ttl := "", ttlKey := "",
    retriesOK := true }

/-- Fixture: a connected writer built over `exConf`. -/
def exWriter : DynWriter :=
  { client := some 0, conf := exConf, ttl := 0, strColumns := [("c", "t")] }

/-- Fixture: a disconnected writer (no client handle yet). -/
def exWriterDisc : DynWriter :=
  { client := none, conf := exConf, ttl := 0, strColumns := [("c", "t")] }

/-- Fixture: a store stub failing every batch submission while the
backoff signals exhaustion immediately. -/
def envAlwaysErrStop : WriteEnv :=
  { batch := fun _ => .err "boom", boff := fun _ => .stop,
    interp := fun _ _ _ => "v", clock := fun _ => 100 }

/-- Fixture: a store stub failing the first submission and accepting the
second, the backoff handing out a finite 1000-unit wait. -/
def envErrThenOk : WriteEnv :=
  { batch := fun n => if n = 0 then .err "boom" else .ok [],
    boff := fun _ => .wait 1000,
    interp := fun _ _ _ => "v", clock := fun _ => 100 }

/-- Fixture: a config with a parseable TTL duration and no TTL attribute
name. -/
def exConfTTLNoKey : DynamoDBConfig :=
  { table := "T", stringColumns := [("a", "x")], ttl := "1s", ttlKey := "",
    retriesOK := true }

/-- Fixture: a config with no columns at all. -/
def exConfNoCols : DynamoDBConfig :=
  { table := "T", stringColumns := [], ttl := "", ttlKey := "",
    retriesOK := true }

/-- Fixture: a writer whose TTL attribute name is also a configured
column name. -/
def exWriterShadow : DynWriter :=
  { client := some 0,
    conf := { table := "T", stringColumns := [("k", "t")], ttl := "5s",
              ttlKey := "k", retriesOK := true },
    ttl := 5, strColumns := [("k", "t")] }

/-- Fixture: a writer with TTL configured under a name distinct from its
column. -/
def exWriterTTL : DynWriter :=
  { client := some 0,
    conf := { table := "T", stringColumns := [("c", "t")], ttl := "5s",
              ttlKey := "k", retriesOK := true },
    ttl := 5, strColumns := [("c", "t")] }

/-- Fixture: a write environment whose interpolator always yields
`colval` and whose clock reads 100. -/
def envColVal : WriteEnv :=
  { batch := fun _ => .ok [], boff := fun _ => .stop,
    interp := fun _ _ _ => "colval", clock := fun _ => 100 }

/-- Fixture: a connection environment whose session build fails. -/
def envConnFail : ConnEnv :=
  { getSession := .error "nope", describeTable := fun _ => .err "unused" }

/-- Fixture: a connection environment where everything succeeds and the
table is active. -/
def envConnOk : ConnEnv :=
  { getSession := .ok 5,
    describeTable := fun _ => .ok (some { table := some (some "ACTIVE") }) }

theorem mapLookup_cons (k' v : String) (rest : Item) (k : String) :
    mapLookup ((k', v) :: rest) k =
      if k' = k then some v else mapLookup rest k := rfl

theorem mapLookup_filter_ne (m : Item) (k k' : String) (h : k' ≠ k) :
    mapLookup (m.filter fun p => p.1 ≠ k) k' = mapLookup m k' := by
  induction m with
  | nil => rfl
  | cons p rest ih =>
    obtain ⟨pk, pv⟩ := p
    rw [List.filter_cons]
    by_cases hp : pk = k
    · rw [show (decide ((pk, pv).1 ≠ k)) = false by simp [hp],
        if_neg (by decide), ih, mapLookup_cons,
        if_neg (show ¬pk = k' from fun hk => h (by rw [← hk, hp]))]
    · rw [show (decide ((pk, pv).1 ≠ k)) = true by simp [hp],
        if_pos rfl, mapLookup_cons, mapLookup_cons, ih]

theorem mapLookup_mapInsert (m : Item) (k v k' : String) :
    mapLookup (mapInsert m k v) k' =
      if k = k' then some v else mapLookup m k' := by
  unfold mapInsert
  rw [mapLookup_cons]
  by_cases h : k = k'
  · rw [if_pos h, if_pos h]
  · rw [if_neg h, if_neg h, mapLookup_filter_ne m k k' (Ne.symm h)]

theorem insertAll_cons (f : String × String → String) (base : Item)
    (kt : String × String) (rest : List (String × String)) :
    insertAll f base (kt :: rest) =
      insertAll f (mapInsert base kt.1 (f kt)) rest := rfl

theorem mapLookup_insertAll_not_mem (f : String × String → String)
    (k : String) :
    ∀ (cols : List (String × String)) (base : Item),
      k ∉ cols.map Prod.fst →
      mapLookup (insertAll f base cols) k = mapLookup base k
  | [], _, _ => rfl
  | kt :: rest, base, h => by
    rw [insertAll_cons]
    have hk : kt.1 ≠ k := by
      intro hkk
      exact h (by simp [hkk])
    have hr : k ∉ rest.map Prod.fst := by
      intro hm
      exact h (by simp [hm])
    rw [mapLookup_insertAll_not_mem f k rest _ hr, mapLookup_mapInsert,
      if_neg hk]

theorem mapLookup_insertAll_mem (f : String × String → String)
    (k : String) (t : String) :
    ∀ (cols : List (String × String)) (base : Item),
      (cols.map Prod.fst).Nodup → (k, t) ∈ cols →
      mapLookup (insertAll f base cols) k = some (f (k, t))
  | [], _, _, hm => absurd hm (List.not_mem_nil _)
  | kt :: rest, base, hnd, hm => by
    rw [insertAll_cons]
    rcases List.mem_cons.mp hm with heq | hm'
    · have hk : k ∉ rest.map Prod.fst := by
        have := (List.nodup_cons.mp hnd).1
        simpa [← heq] using this
      rw [mapLookup_insertAll_not_mem f k rest _ hk, mapLookup_mapInsert,
        if_pos (by simp [← heq]), ← heq]
    · exact mapLookup_insertAll_mem f k t rest _ (List.nodup_cons.mp hnd).2 hm'

theorem isSome_mapLookup_insertAll (f : String × String → String)
    (k : String) :
    ∀ (cols : List (String × String)) (base : Item),
      (mapLookup (insertAll f base cols) k).isSome = true ↔
        k ∈ cols.map Prod.fst ∨ (mapLookup base k).isSome = true
  | [], base => by simp [insertAll]
  | kt :: rest, base => by
    rw [insertAll_cons, isSome_mapLookup_insertAll f k rest _]
    rw [mapLookup_mapInsert]
    by_cases hk : kt.1 = k
    · simp [hk]
    · simp [hk, Ne.symm hk]

theorem renderItem_eq_insertAll (w : DynWriter) (env : WriteEnv)
    (msg : List RecPart) (i : Nat) :
    renderItem w env msg i =
      insertAll (fun kt => env.interp kt.2 msg i)
        (if w.ttl ≠ 0 ∧ w.conf.ttlKey ≠ "" then
          mapInsert [] w.conf.ttlKey (rfc3339Nano (env.clock i + w.ttl))
        else []) w.strColumns := rfl

theorem renderCols_eq_insertAll (w : DynWriter) (env : WriteEnv)
    (msg : List RecPart) (i : Nat) :
    renderCols w env msg i =
      insertAll (fun kt => env.interp kt.2 msg i) [] w.strColumns := rfl

/-- Claim C1 (code bug): with a connected writer, a store stub that
rejects every submission and a backoff that signals exhaustion (`Stop`)
while the pending list is still non-empty, `Write` ends the retry loop
holding the terminal transport error and the unwritten items — and then
returns nil (`ret = none`), i.e. success, to its caller (line 205 of the
source discards the terminal error). -/
theorem write_exhaustion_returns_nil :
    Write exWriter envAlwaysErrStop ["a"] 4 =
      some { ret := none, pending := [[("c", "v")]],
             lastErr := some (.store "boom"), attempts := 1,
             events := [.render 0, .submit [[("c", "v")]]] } := by
  decide

/-- Claim C2 (code bug): after a failed submission with a finite backoff
wait of 1000 units, the retry loop proceeds directly to a timer creation
(`time.After`, channel discarded) and the next submission; the trace
contains no blocking wait at all. -/
theorem write_retry_does_not_block :
    Write exWriter envErrThenOk ["a"] 4 =
      some { ret := none, pending := [], lastErr := none, attempts := 2,
             events := [.render 0, .submit [[("c", "v")]],
                        .timerAfter 1000, .submit [[("c", "v")]],
                        .backoffReset] } ∧
    ([WEvent.render 0, .submit [[("c", "v")]], .timerAfter 1000,
      .submit [[("c", "v")]], .backoffReset].all
        fun e => !isSleepEvent e) = true := by
  constructor
  · decide
  · decide

/-- Claim C5: calling `Write` while the client handle is nil fails
immediately with the not-connected error, with an empty event trace (no
rendering, no store submission). -/
theorem write_before_connect_fails (w : DynWriter) (env : WriteEnv)
    (msg : List RecPart) (fuel : Nat) (h : w.client = none) :
    Write w env msg fuel =
      some { ret := some .notConnected, pending := [], lastErr := none,
             attempts := 0, events := [] } := by
  simp [Write, h]

theorem write_before_connect_fails_witness :
    exWriterDisc.client = none ∧
    Write exWriterDisc envAlwaysErrStop ["a"] 3 =
      some { ret := some .notConnected, pending := [], lastErr := none,
             attempts := 0, events := [] } :=
  ⟨rfl, write_before_connect_fails exWriterDisc envAlwaysErrStop ["a"] 3 rfl⟩

/-- Claim C6: a configuration whose string-columns map is empty is
rejected at construction with an error, so the writer is never created
(`NewDynamoDB` performs no store interaction: it consumes no store
oracle at all). -/
theorem new_dynamodb_requires_column (conf : DynamoDBConfig)
    (h : conf.stringColumns = []) :
    ∃ e, NewDynamoDB conf = .error e := by
  unfold NewDynamoDB
  by_cases hr : conf.retriesOK = true
  · exact ⟨.mustProvideColumn, by rw [h]; simp [hr]⟩
  · exact ⟨.failedParseRetry, by simp [hr]⟩

theorem new_dynamodb_requires_column_witness :
    exConfNoCols.stringColumns = [] ∧
    ∃ e, NewDynamoDB exConfNoCols = .error e :=
  ⟨rfl, new_dynamodb_requires_column exConfNoCols rfl⟩

theorem renderItem_no_ttl (w : DynWriter) (env : WriteEnv)
    (msg : List RecPart) (i : Nat)
    (h : w.ttl = 0 ∨ w.conf.ttlKey = "") :
    renderItem w env msg i = renderCols w env msg i := by
  have hg : ¬(w.ttl ≠ 0 ∧ w.conf.ttlKey ≠ "") := by
    rcases h with h | h <;> simp [h]
  simp [renderItem, renderCols, hg]

/-- Claim C3 counterexample: `NewDynamoDB` accepts a configuration whose
TTL duration is `1s` while the TTL attribute name is empty — the
resulting writer has a non-zero TTL duration and no TTL attribute name,
so the claimed construction-time rejection does not happen. -/
theorem new_dynamodb_accepts_ttl_without_key :
    (NewDynamoDB exConfTTLNoKey).toOption.map (fun w => (w.ttl, w.conf.ttlKey))
      = some (1, "") := by
  decide

/-- Claim C3 (amended): construction never compares the TTL duration with
the TTL attribute name: any combination passes (only a malformed
duration string is rejected), and the invariant is applied at write time
instead — a writer whose TTL duration is zero or whose TTL attribute
name is empty renders exactly the configured columns, with TTL silently
disabled. -/
theorem new_dynamodb_ttl_unchecked (conf : DynamoDBConfig)
    (h1 : conf.retriesOK = true) (h2 : conf.stringColumns ≠ [])
    (h3 : conf.ttl = "" ∨ (parseDuration conf.ttl).isSome = true) :
    ∃ w, NewDynamoDB conf = .ok w ∧
      ∀ env msg i, (w.ttl = 0 ∨ w.conf.ttlKey = "") →
        renderItem w env msg i = renderCols w env msg i := by
  have hlen : ¬(conf.stringColumns.length = 0) := by
    simpa [List.length_eq_zero] using h2
  by_cases ht : conf.ttl = ""
  · refine ⟨{ client := none, conf := conf, ttl := 0,
              strColumns := conf.stringColumns }, ?_, ?_⟩
    · simp [NewDynamoDB, h1, hlen, ht]
    · intro env msg i h
      exact renderItem_no_ttl _ env msg i h
  · rcases h3 with h3 | h3
    · exact absurd h3 ht
    · obtain ⟨t, hp⟩ := Option.isSome_iff_exists.mp h3
      refine ⟨{ client := none, conf := conf, ttl := t,
                strColumns := conf.stringColumns }, ?_, ?_⟩
      · simp [NewDynamoDB, h1, hlen, ht, hp]
      · intro env msg i h
        exact renderItem_no_ttl _ env msg i h

theorem new_dynamodb_ttl_unchecked_witness :
    (exConfTTLNoKey.retriesOK = true ∧ exConfTTLNoKey.stringColumns ≠ [] ∧
      (exConfTTLNoKey.ttl = "" ∨
        (parseDuration exConfTTLNoKey.ttl).isSome = true)) ∧
    ∃ w, NewDynamoDB exConfTTLNoKey = .ok w ∧
      ∀ env msg i, (w.ttl = 0 ∨ w.conf.ttlKey = "") →
        renderItem w env msg i = renderCols w env msg i :=
  ⟨⟨rfl, by decide, Or.inr (by decide)⟩,
    new_dynamodb_ttl_unchecked exConfTTLNoKey rfl (by decide)
      (Or.inr (by decide))⟩

/-- Claim C4: a successful submission with a non-empty unprocessed set
replaces the pending list with exactly those unprocessed items, records
the error naming their count, and is handled by the same wait/exhaustion
logic as a transport error (identical `stopped` flag and post-submission
events for every backoff wait); consequently the next loop iteration
submits exactly the unprocessed items. -/
theorem write_unprocessed_replaces_pending
    (env : WriteEnv) (fuel n d : Nat) (reqs unproc : List Item)
    (err : Option GoErr) (e : String)
    (h1 : reqs ≠ []) (h2 : unproc ≠ [])
    (hb : env.batch n = .ok unproc) (hw : env.boff n = .wait d) :
    (∀ wait, writeStep (.ok unproc) wait reqs =
      { reqs := unproc, err := some (.failedToSet unproc.length),
        stopped := (writeStep (.err e) wait reqs).stopped,
        events := (writeStep (.err e) wait reqs).events }) ∧
    writeLoop env (fuel + 1) reqs n err =
      (match writeLoop env fuel unproc (n + 1)
          (some (.failedToSet unproc.length)) with
       | some (r, e2, m, evs) =>
          some (r, e2, m, WEvent.submit reqs :: WEvent.timerAfter d :: evs)
       | none => none) := by
  have hlen : unproc.length > 0 := List.length_pos.mpr h2
  have hs : ∀ wait, writeStep (.ok unproc) wait reqs =
      { reqs := unproc, err := some (.failedToSet unproc.length),
        stopped := (writeStep (.err e) wait reqs).stopped,
        events := (writeStep (.err e) wait reqs).events } := by
    intro wait
    cases wait <;> simp [writeStep, hlen]
  refine ⟨hs, ?_⟩
  have hstep : writeStep (env.batch n) (env.boff n) reqs =
      { reqs := unproc, err := some (.failedToSet unproc.length),
        stopped := false,
        events := [.submit reqs, .timerAfter d] } := by
    rw [hb, hw]
    simp [writeStep, hlen]
  simp only [writeLoop, List.isEmpty_eq_true, h1, if_false, hstep]
  cases hres : writeLoop env fuel unproc (n + 1)
      (some (.failedToSet unproc.length)) with
  | none => simp
  | some x =>
    obtain ⟨r, e2, m, evs⟩ := x
    simp

theorem write_unprocessed_replaces_pending_witness :
    (([[("c", "v")]] : List Item) ≠ [] ∧ ([[("u", "1")]] : List Item) ≠ [] ∧
      (WriteEnv.mk (fun _ => .ok [[("u", "1")]]) (fun _ => .wait 7)
        (fun _ _ _ => "v") (fun _ => 0)).batch 0 = .ok [[("u", "1")]] ∧
      (WriteEnv.mk (fun _ => .ok [[("u", "1")]]) (fun _ => .wait 7)
        (fun _ _ _ => "v") (fun _ => 0)).boff 0 = .wait 7) ∧
    writeStep (.ok [[("u", "1")]]) (.wait 7) [[("c", "v")]] =
      { reqs := [[("u", "1")]], err := some (.failedToSet 1),
        stopped := (writeStep (.err "boom") (.wait 7) [[("c", "v")]]).stopped,
        events := (writeStep (.err "boom") (.wait 7) [[("c", "v")]]).events } := by
  refine ⟨⟨by decide, by decide, rfl, rfl⟩, ?_⟩
  exact (write_unprocessed_replaces_pending
    (WriteEnv.mk (fun _ => .ok [[("u", "1")]]) (fun _ => .wait 7)
      (fun _ _ _ => "v") (fun _ => 0)) 1 0 7 [[("c", "v")]] [[("u", "1")]]
    none "boom" (by decide) (by decide) rfl rfl).1 (.wait 7)

theorem connect_connected (w : DynWriter) (env : ConnEnv)
    (h : w.client.isSome = true) : Connect w env = (none, w, []) := by
  unfold Connect
  rw [if_pos h]


theorem connect_cases (w : DynWriter) (env : ConnEnv) :
    (w.client.isSome = true ∧ Connect w env = (none, w, [])) ∨
    (w.client = none ∧ ∃ e, env.getSession = .error e ∧
      Connect w env = (some (.sessionErr e), w, [.getSession])) ∨
    (w.client = none ∧ ∃ sess e, env.getSession = .ok sess ∧
      env.describeTable sess = .err e ∧
      Connect w env =
        (some (.store e), w, [.getSession, .describeTable])) ∨
    (w.client = none ∧ ∃ sess out, env.getSession = .ok sess ∧
      env.describeTable sess = .ok out ∧ tableActive out = true ∧
      Connect w env = (none, { w with client := some sess },
        [.getSession, .describeTable])) ∨
    (w.client = none ∧ ∃ sess out, env.getSession = .ok sess ∧
      env.describeTable sess = .ok out ∧ tableActive out = false ∧
      Connect w env = (some (.tableNotActive w.conf.table), w,
        [.getSession, .describeTable])) := by
  by_cases hc : w.client.isSome = true
  · exact Or.inl ⟨hc, by simp [Connect, hc]⟩
  · have hnone : w.client = none := by
      cases hw : w.client with
      | none => rfl
      | some c => exact absurd (by simp [hw]) hc
    cases hgs : env.getSession with
    | error e =>
      exact Or.inr (Or.inl ⟨hnone, e, rfl, by simp [Connect, hc, hgs]⟩)
    | ok sess =>
      cases hd : env.describeTable sess with
      | err e =>
        refine Or.inr (Or.inr (Or.inl ⟨hnone, sess, e, rfl, hd, ?_⟩))
        simp [Connect, hc, hgs, hd]
      | ok out =>
        by_cases ha : tableActive out = true
        · refine Or.inr (Or.inr (Or.inr (Or.inl
            ⟨hnone, sess, out, rfl, hd, ha, ?_⟩)))
          simp [Connect, hc, hgs, hd, ha]
        · refine Or.inr (Or.inr (Or.inr (Or.inr
            ⟨hnone, sess, out, rfl, hd, by simpa using ha, ?_⟩)))
          simp [Connect, hc, hgs, hd, ha]

theorem connect_disconnected_getSession (w : DynWriter)
    (h : w.client = none) :
    ∀ env3 : ConnEnv, ConnEvent.getSession ∈ (Connect w env3).2.2 := by
  intro env3
  rcases connect_cases w env3 with ⟨hc, hE⟩ | ⟨_, e, _, hE⟩ |
    ⟨_, s, e2, _, _, hE⟩ | ⟨_, s, o, _, _, _, hE⟩ | ⟨_, s, o, _, _, _, hE⟩
  · exact absurd hc (by simp [h])
  · rw [hE]; simp
  · rw [hE]; simp
  · rw [hE]; simp
  · rw [hE]; simp

/-- Claim C7: after a successful `Connect`, a subsequent `Connect` is a
no-op returning success — no events (no session creation, no readiness
check) and the state unchanged — so two sequential calls perform the
readiness check at most once and both report success. -/
theorem connect_idempotent (w : DynWriter) (env env' : ConnEnv)
    (h : (Connect w env).1 = none) :
    Connect (Connect w env).2.1 env' = (none, (Connect w env).2.1, []) ∧
    ((Connect w env).2.2 ++
      (Connect (Connect w env).2.1 env').2.2).count
        ConnEvent.describeTable ≤ 1 := by
  rcases connect_cases w env with ⟨hc, hE⟩ | ⟨_, e, _, hE⟩ |
    ⟨_, s, e2, _, _, hE⟩ | ⟨_, s, o, _, _, _, hE⟩ | ⟨_, s, o, _, _, _, hE⟩
  · have c1 : Connect w env' = (none, w, []) := connect_connected w env' hc
    rw [hE]
    dsimp only
    rw [c1]
    exact ⟨rfl, by simp⟩
  · rw [hE] at h; simp at h
  · rw [hE] at h; simp at h
  · have hsome : ({ w with client := some s } : DynWriter).client.isSome
        = true := rfl
    have c1 := connect_connected { w with client := some s } env' hsome
    rw [hE]
    dsimp only
    rw [c1]
    exact ⟨rfl, by simp [List.count_cons]⟩
  · rw [hE] at h; simp at h

theorem connect_idempotent_witness :
    (Connect exWriterDisc envConnOk).1 = none ∧
    Connect (Connect exWriterDisc envConnOk).2.1 envConnOk =
      (none, (Connect exWriterDisc envConnOk).2.1, []) ∧
    ((Connect exWriterDisc envConnOk).2.2 ++
      (Connect (Connect exWriterDisc envConnOk).2.1 envConnOk).2.2).count
        ConnEvent.describeTable ≤ 1 := by
  refine ⟨by decide, ?_, ?_⟩
  · exact (connect_idempotent exWriterDisc envConnOk envConnOk (by decide)).1
  · exact (connect_idempotent exWriterDisc envConnOk envConnOk (by decide)).2

/-- Claim C9: when `Connect` fails, the writer is unchanged (in
particular the client handle is still nil), so a subsequent `Write`
fails with the not-connected error, and a subsequent `Connect` starts
over with the session build (its event trace contains the
session-creation step for any environment). -/
theorem connect_failure_atomic (w : DynWriter) (env : ConnEnv) (e : GoErr)
    (h : (Connect w env).1 = some e) :
    (Connect w env).2.1 = w ∧ w.client = none ∧
    (∀ env2 msg fuel, Write w env2 msg fuel =
      some { ret := some .notConnected, pending := [], lastErr := none,
             attempts := 0, events := [] }) ∧
    (∀ env3 : ConnEnv, ConnEvent.getSession ∈ (Connect w env3).2.2) := by
  rcases connect_cases w env with ⟨hc, hE⟩ | ⟨hn, e2, _, hE⟩ |
    ⟨hn, s, e2, _, _, hE⟩ | ⟨_, s, o, _, _, _, hE⟩ | ⟨hn, s, o, _, _, _, hE⟩
  · rw [hE] at h; simp at h
  · exact ⟨by rw [hE], hn, fun env2 msg fuel => by simp [Write, hn],
      connect_disconnected_getSession w hn⟩
  · exact ⟨by rw [hE], hn, fun env2 msg fuel => by simp [Write, hn],
      connect_disconnected_getSession w hn⟩
  · rw [hE] at h; simp at h
  · exact ⟨by rw [hE], hn, fun env2 msg fuel => by simp [Write, hn],
      connect_disconnected_getSession w hn⟩

theorem connect_failure_atomic_witness :
    (Connect exWriterDisc envConnFail).1 = some (.sessionErr "nope") ∧
    (Connect exWriterDisc envConnFail).2.1 = exWriterDisc ∧
    Write exWriterDisc envErrThenOk ["a"] 2 =
      some { ret := some .notConnected, pending := [], lastErr := none,
             attempts := 0, events := [] } ∧
    ConnEvent.getSession ∈ (Connect exWriterDisc envConnOk).2.2 := by
  have h := connect_failure_atomic exWriterDisc envConnFail
    (.sessionErr "nope") (by decide)
  exact ⟨by decide, h.1, h.2.2.1 envErrThenOk ["a"] 2, h.2.2.2 envConnOk⟩

/-- Claim C8 counterexample: with TTL duration 5 under attribute name
`k`, where `k` is also a configured column, the rendered request's `k`
attribute holds the interpolated column value (`colval`), not the
timestamp clock-plus-duration (`rfc3339Nano` of 100 + 5) the claim
requires. -/
theorem ttl_attribute_shadowed_by_column :
    mapLookup (renderItem exWriterShadow envColVal ["a"] 0) "k"
      = some "colval" ∧
    "colval" ≠ rfc3339Nano (envColVal.clock 0 + exWriterShadow.ttl) := by
  exact ⟨by decide, by decide⟩

/-- Claim C8 (amended): when TTL is configured with duration `d` and
attribute name `ttl_at`, and `ttl_at` is not itself a configured column
name, every rendered request maps `ttl_at` to the absolute timestamp
render-time-clock plus `d`; when TTL is disabled (zero duration or empty
attribute name) no TTL timestamp is attached — the rendered request is
exactly the column-only rendering (so the only way the name can appear
is as a configured column). -/
theorem ttl_attribute_amended (w : DynWriter) (env : WriteEnv)
    (msg : List RecPart) (i : Nat) :
    (w.ttl ≠ 0 → w.conf.ttlKey ≠ "" →
      w.conf.ttlKey ∉ w.strColumns.map Prod.fst →
      mapLookup (renderItem w env msg i) w.conf.ttlKey =
        some (rfc3339Nano (env.clock i + w.ttl))) ∧
    ((w.ttl = 0 ∨ w.conf.ttlKey = "") →
      renderItem w env msg i = renderCols w env msg i) := by
  constructor
  · intro h1 h2 h3
    rw [renderItem_eq_insertAll,
      mapLookup_insertAll_not_mem _ _ w.strColumns _ h3,
      if_pos ⟨h1, h2⟩, mapLookup_mapInsert, if_pos rfl]
  · exact renderItem_no_ttl w env msg i

theorem ttl_attribute_amended_witness :
    (exWriterTTL.ttl ≠ 0 ∧ exWriterTTL.conf.ttlKey ≠ "" ∧
      exWriterTTL.conf.ttlKey ∉ exWriterTTL.strColumns.map Prod.fst) ∧
    mapLookup (renderItem exWriterTTL envColVal ["a"] 0) "k" =
      some (rfc3339Nano 105) := by
  refine ⟨⟨by decide, by decide, by decide⟩, ?_⟩
  exact (ttl_attribute_amended exWriterTTL envColVal ["a"] 0).1
    (by decide) (by decide) (by decide)

/-- Claim C10: the attribute names of a rendered request are exactly the
configured column names, plus the TTL attribute name when both a
non-zero TTL duration and a non-empty TTL attribute name are configured;
and when the TTL attribute name is also a configured column, the
interpolated column value is what the request holds under that name
(columns are assigned after the TTL attribute). -/
theorem write_request_attribute_names (w : DynWriter) (env : WriteEnv)
    (msg : List RecPart) (i : Nat)
    (hnd : (w.strColumns.map Prod.fst).Nodup) :
    (∀ k, (mapLookup (renderItem w env msg i) k).isSome = true ↔
      (k ∈ w.strColumns.map Prod.fst ∨
        (w.ttl ≠ 0 ∧ w.conf.ttlKey ≠ "" ∧ k = w.conf.ttlKey))) ∧
    (∀ t, (w.conf.ttlKey, t) ∈ w.strColumns →
      mapLookup (renderItem w env msg i) w.conf.ttlKey =
        some (env.interp t msg i)) := by
  constructor
  · intro k
    rw [renderItem_eq_insertAll, isSome_mapLookup_insertAll]
    by_cases hg : w.ttl ≠ 0 ∧ w.conf.ttlKey ≠ ""
    · rw [if_pos hg, mapLookup_mapInsert]
      by_cases hk : w.conf.ttlKey = k
      · rw [hk, if_pos rfl]
        simp only [Option.isSome_some]
        constructor
        · intro _
          exact Or.inr ⟨hg.1, hk ▸ hg.2, trivial⟩
        · intro _
          exact Or.inr trivial
      · have hk' : ¬(k = w.conf.ttlKey) := fun hh => hk hh.symm
        simp [hk, hk', mapLookup]
    · rw [if_neg hg]
      simp only [mapLookup, Option.isSome_none, Bool.false_eq_true, or_false]
      constructor
      · exact Or.inl
      · rintro (hin | ⟨ha, hb, _⟩)
        · exact hin
        · exact (hg ⟨ha, hb⟩).elim
  · intro t hm
    rw [renderItem_eq_insertAll]
    exact mapLookup_insertAll_mem _ _ t w.strColumns _ hnd hm

theorem write_request_attribute_names_witness :
    (exWriterShadow.strColumns.map Prod.fst).Nodup ∧
    (mapLookup (renderItem exWriterShadow envColVal ["a"] 0) "k").isSome
      = true ∧
    mapLookup (renderItem exWriterShadow envColVal ["a"] 0) "k"
      = some (envColVal.interp "t" ["a"] 0) := by
  have h := write_request_attribute_names exWriterShadow envColVal
    ["a"] 0 (by decide)
  refine ⟨by decide, ?_, ?_⟩
  · exact (h.1 "k").mpr (Or.inl (by decide))
  · exact h.2 "t" (by decide)
